import Mathlib

/-!
Shallow embedding of the escape-room backend in src/backend/app.py.

The Python module keeps a process-wide dictionary `game_states` mapping
session ids to mutable per-session records, plus an immutable configuration
dictionary `GAME_CONFIG`.  Python dictionaries preserve insertion order, so
they are embedded as association lists of string keys; dictionary read,
in-place update and insert-or-overwrite become `dictGet`, `dictSet` and
`dictInsert`.  Wall-clock time (`time.time()`, a float) is embedded as a
rational number.  Each Flask handler becomes a pure function from the
session map and its inputs to a response paired with the new session map.
-/

/-- Python dictionary lookup: first entry with the given key, if any. -/
def dictGet {α : Type} : List (String × α) → String → Option α
  | [], _ => none
  | p :: rest, k => if p.1 = k then some p.2 else dictGet rest k

/-- In-place overwrite of the value at a key (no effect if the key is absent). -/
def dictSet {α : Type} : List (String × α) → String → α → List (String × α)
  | [], _, _ => []
  | p :: rest, k, v => (if p.1 = k then (p.1, v) else p) :: dictSet rest k v

/-- Key-membership test, as in the Python `in` operator. -/
def dictContains {α : Type} (l : List (String × α)) (k : String) : Bool :=
  (dictGet l k).isSome

/-- Python dictionary assignment `d[k] = v`: overwrite when the key exists,
append otherwise (dictionaries preserve insertion order). -/
def dictInsert {α : Type} (l : List (String × α)) (k : String) (v : α) :
    List (String × α) :=
  if dictContains l k then dictSet l k v else l ++ [(k, v)]

/-- Python `str.lower()` (character-wise lowering; the registry is ASCII,
where `Char.toLower` agrees with Python). -/
def pyLower (s : String) : String :=
  String.mk (s.data.map Char.toLower)

/-- Python `int()` on a float: truncation toward zero. -/
def pyInt (q : ℚ) : Int :=
  if 0 ≤ q then q.floor else q.ceil

/-- One entry of `GAME_CONFIG["puzzles"]`: an ordinary puzzle carries a
solution string, the door carries a list of prerequisite puzzle ids.
(The static `"solved": False` field of the configuration is dead data: the
per-session record is built separately by `create_new_game_state`.) -/
structure PuzzleConfig where
  solution : Option String
  requires : Option (List String)
  description : String
deriving Repr, DecidableEq

/-- One entry of `GAME_CONFIG["items"]` (the static `"found": False` field
is likewise dead data). -/
structure ItemConfig where
  location : String
  description : String
deriving Repr, DecidableEq

/-- The shape of `GAME_CONFIG`. -/
structure GameConfig where
  time_limit : Nat
  puzzles : List (String × PuzzleConfig)
  items : List (String × ItemConfig)
deriving Repr, DecidableEq

/-- The literal `GAME_CONFIG` dictionary of app.py. -/
def GAME_CONFIG : GameConfig where
  time_limit := 30 * 60
  puzzles :=
    [ ("safe",
       { solution := some "1234", requires := none,
         description := "A locked safe with a 4-digit combination." })
    , ("bookshelf",
       { solution := some "red,blue,green", requires := none,
         description := "A bookshelf with colored books that need to be arranged." })
    , ("computer",
       { solution := some "password", requires := none,
         description := "A locked computer that needs a password." })
    , ("door",
       { solution := none, requires := some ["safe", "bookshelf", "computer"],
         description := "The exit door. Requires all other puzzles to be solved." }) ]
  items :=
    [ ("key", { location := "safe", description := "A small golden key." })
    , ("note", { location := "bookshelf", description := "A handwritten note with a clue." })
    , ("usb_drive", { location := "computer", description := "A USB drive with important data." }) ]

/-- A per-session record, as built by `create_new_game_state` and mutated by
the handlers.  The `success` key is absent from a fresh record and is read
with `state.get("success", False)`, hence an `Option`. -/
structure GameState where
  start_time : ℚ
  puzzles : List (String × Bool)
  items : List (String × Bool)
  hints_used : Nat
  completed : Bool
  success : Option Bool
deriving Repr, DecidableEq

/-- Reading `state["puzzles"][pid]["solved"]` (defaulting to false off the
record, which a well-formed session never exercises). -/
def GameState.puzzleSolved (st : GameState) (pid : String) : Bool :=
  (dictGet st.puzzles pid).getD false

/-- Reading `state["items"][iid]["found"]` (same convention). -/
def GameState.itemFound (st : GameState) (iid : String) : Bool :=
  (dictGet st.items iid).getD false

/-- The fresh record of `create_new_game_state()`: all puzzles unsolved, all
items not found, no hints used, not completed, no `success` key. -/
def create_new_game_state (cfg : GameConfig) (now : ℚ) : GameState where
  start_time := now
  puzzles := cfg.puzzles.map (fun p => (p.1, false))
  items := cfg.items.map (fun p => (p.1, false))
  hints_used := 0
  completed := false
  success := none

/-- The body of the `POST /api/game/new` response. -/
structure NewGameResponse where
  session_id : String
  message : String
  time_limit : Nat
deriving Repr, DecidableEq

/-- The session-id generator of `new_game`: `str(int(time.time()))`. -/
def newSessionId (now : ℚ) : String :=
  toString (pyInt now)

/-- Handler `new_game()`: derive the id from the current time, store a fresh record
under it (overwriting any record already stored under that id), and return
the id with the configured time limit. -/
def new_game (cfg : GameConfig) (games : List (String × GameState)) (now : ℚ) :
    NewGameResponse × List (String × GameState) :=
  let session_id := newSessionId now
  ( { session_id := session_id, message := "New game started",
      time_limit := cfg.time_limit }
  , dictInsert games session_id (create_new_game_state cfg now) )

/-- One puzzle entry of the `GET /api/game/state` response. -/
structure PuzzleView where
  solved : Bool
  description : String
deriving Repr, DecidableEq

/-- One item entry of the `GET /api/game/state` response. -/
structure ItemView where
  found : Bool
  description : String
deriving Repr, DecidableEq

/-- The `GET /api/game/state` success body. -/
structure StateView where
  time_remaining : Int
  puzzles : List (String × PuzzleView)
  items : List (String × ItemView)
  hints_used : Nat
  completed : Bool
  success : Bool
deriving Repr, DecidableEq

/-- The `GET /api/game/state` outcomes: 404 with an error body, or 200. -/
inductive StateResponse where
  | notFound (error : String)
  | ok (view : StateView)
deriving Repr, DecidableEq

/-- The puzzles section of the state view: solved flag from the session,
description from the registry. -/
def puzzlesView (puzzles : List (String × PuzzleConfig)) (st : GameState) :
    List (String × PuzzleView) :=
  puzzles.map (fun p =>
    (p.1, { solved := st.puzzleSolved p.1, description := p.2.description }))

/-- The items section of the state view: found flag from the session, the
registry description when found and the placeholder otherwise. -/
def itemsView (items : List (String × ItemConfig)) (st : GameState) :
    List (String × ItemView) :=
  items.map (fun p =>
    (p.1, { found := st.itemFound p.1,
            description := if st.itemFound p.1 = true then p.2.description else "???" }))

/-- The state view assembled by `get_game_state` from a (possibly just
timed-out) session record. -/
def mkStateView (cfg : GameConfig) (st : GameState) (time_remaining : ℚ) :
    StateView where
  time_remaining := pyInt time_remaining
  puzzles := puzzlesView cfg.puzzles st
  items := itemsView cfg.items st
  hints_used := st.hints_used
  completed := st.completed
  success := st.success.getD false

/-- Handler `get_game_state()`: 404 for an unknown session; otherwise compute
`time_remaining = max(0, time_limit - elapsed)`, lazily complete the session
as a failure when the time is up, and return the assembled view. -/
def get_game_state (cfg : GameConfig) (games : List (String × GameState))
    (session_id : String) (now : ℚ) :
    StateResponse × List (String × GameState) :=
  match dictGet games session_id with
  | none => (StateResponse.notFound "Game session not found", games)
  | some state =>
    let elapsed_time : ℚ := now - state.start_time
    let time_remaining : ℚ := max 0 ((cfg.time_limit : ℚ) - elapsed_time)
    if time_remaining ≤ 0 ∧ state.completed = false then
      let state' : GameState := { state with completed := true, success := some false }
      (StateResponse.ok (mkStateView cfg state' time_remaining),
       dictSet games session_id state')
    else
      (StateResponse.ok (mkStateView cfg state time_remaining), games)

/-- The `POST /api/game/solve` outcomes: 404 and 400 with an error body, or
200 with a success flag, a message, and the optional `item_found` and
`game_completed` fields. -/
inductive SolveResponse where
  | notFound (error : String)
  | badRequest (error : String)
  | ok (success : Bool) (message : String) (item_found : Option String)
      (game_completed : Bool)
deriving Repr, DecidableEq

/-- The HTTP status attached to each solve outcome. -/
def SolveResponse.status : SolveResponse → Nat
  | .notFound _ => 404
  | .badRequest _ => 400
  | .ok _ _ _ _ => 200

/-- The item-reveal loop of `solve_puzzle`: the first registry item located
at this puzzle and not yet found, with its description. -/
def findUnfoundItem (items : List (String × ItemConfig)) (puzzle_id : String)
    (st : GameState) : Option (String × String) :=
  match items with
  | [] => none
  | (item_id, item) :: rest =>
    if item.location = puzzle_id ∧ st.itemFound item_id = false then
      some (item_id, item.description)
    else
      findUnfoundItem rest puzzle_id st

/-- Handler `solve_puzzle()`: resolve the session and puzzle (404 otherwise), reject
completed sessions and already-solved puzzles with 400 errors, read the
submitted solution with `data.get("solution", "")`, then either run the door
prerequisite check or the case-insensitive string comparison, revealing at
most one co-located unfound item on success. -/
def solve_puzzle (cfg : GameConfig) (games : List (String × GameState))
    (session_id puzzle_id : String) (body_solution : Option String) :
    SolveResponse × List (String × GameState) :=
  match dictGet games session_id with
  | none => (SolveResponse.notFound "Game session not found", games)
  | some state =>
    match dictGet cfg.puzzles puzzle_id with
    | none => (SolveResponse.notFound "Puzzle not found", games)
    | some puzzle_cfg =>
      if state.completed = true then
        (SolveResponse.badRequest "Game already completed", games)
      else if state.puzzleSolved puzzle_id = true then
        (SolveResponse.badRequest "Puzzle already solved", games)
      else
        let solution_attempt := body_solution.getD ""
        if puzzle_id = "door" then
          let required_puzzles :=
            ((dictGet cfg.puzzles "door").bind PuzzleConfig.requires).getD []
          if required_puzzles.all (fun p => state.puzzleSolved p) then
            let state' : GameState :=
              { state with puzzles := dictSet state.puzzles "door" true,
                           completed := true, success := some true }
            (SolveResponse.ok true "Congratulations! You\x27ve escaped the room!"
               none true,
             dictSet games session_id state')
          else
            (SolveResponse.ok false
               "You need to solve all puzzles before opening the door." none false,
             games)
        else
          let correct_solution := puzzle_cfg.solution.getD ""
          if pyLower solution_attempt = pyLower correct_solution then
            let state1 : GameState :=
              { state with puzzles := dictSet state.puzzles puzzle_id true }
            match findUnfoundItem cfg.items puzzle_id state1 with
            | some (item_id, item_description) =>
              let state2 : GameState :=
                { state1 with items := dictSet state1.items item_id true }
              (SolveResponse.ok true
                 ("Puzzle solved! You found: " ++ item_description)
                 (some item_id) false,
               dictSet games session_id state2)
            | none =>
              (SolveResponse.ok true "Puzzle solved!" none false,
               dictSet games session_id state1)
          else
            (SolveResponse.ok false "Incorrect solution. Try again." none false,
             games)

/-- The canned hint table of `get_hint`. -/
def hints : List (String × String) :=
  [ ("safe", "Look for a 4-digit code hidden in the room. Maybe check the bookshelf?")
  , ("bookshelf", "The colors need to be arranged in a specific order. Look for a pattern elsewhere.")
  , ("computer", "The password might be written down somewhere. Have you checked all items?")
  , ("door", "You need to solve all other puzzles first.") ]

/-- The `GET /api/game/hint` outcomes: 404 with an error body, or 200 with
the hint and the updated counter. -/
inductive HintResponse where
  | notFound (error : String)
  | ok (hint : String) (hints_used : Nat)
deriving Repr, DecidableEq

/-- Handler `get_hint()`: resolve the session and puzzle (404 otherwise), then
unconditionally bump `hints_used` and return the canned hint, with a
fallback string for puzzle ids missing from the hint table. -/
def get_hint (cfg : GameConfig) (games : List (String × GameState))
    (session_id puzzle_id : String) :
    HintResponse × List (String × GameState) :=
  match dictGet games session_id with
  | none => (HintResponse.notFound "Game session not found", games)
  | some state =>
    match dictGet cfg.puzzles puzzle_id with
    | none => (HintResponse.notFound "Puzzle not found", games)
    | some _ =>
      let state' : GameState := { state with hints_used := state.hints_used + 1 }
      (HintResponse.ok
         ((dictGet hints puzzle_id).getD "No hint available for this puzzle.")
         state'.hints_used,
       dictSet games session_id state')

/-- One client-visible operation against the backend. -/
inductive Op where
  | createSession (now : ℚ)
  | getView (sid : String) (now : ℚ)
  | attemptSolve (sid pid : String) (sol : Option String)
  | useHint (sid pid : String)

/-- Whether an operation is a state read (`GET /api/game/state`). -/
def Op.isGetView : Op → Bool
  | .getView _ _ => true
  | _ => false

/-- The session-map transition performed by one operation. -/
def step (cfg : GameConfig) (games : List (String × GameState)) : Op →
    List (String × GameState)
  | .createSession now => (new_game cfg games now).2
  | .getView sid now => (get_game_state cfg games sid now).2
  | .attemptSolve sid pid sol => (solve_puzzle cfg games sid pid sol).2
  | .useHint sid pid => (get_hint cfg games sid pid).2

/-- Running a sequence of operations from a session map. -/
def runOps (cfg : GameConfig) (games : List (String × GameState))
    (ops : List Op) : List (String × GameState) :=
  ops.foldl (step cfg) games

/-- A boolean observation of a stored session (false if the session is
absent). -/
def sessionFlag (f : GameState → Bool) (games : List (String × GameState))
    (sid : String) : Bool :=
  match dictGet games sid with
  | some st => f st
  | none => false

/-- The solved flag of a puzzle in a stored session (false if the session is
absent). -/
def sessionSolved (games : List (String × GameState)) (sid pid : String) : Bool :=
  sessionFlag (fun st => st.puzzleSolved pid) games sid

/-- The completed flag of a stored session (false if the session is absent). -/
def sessionCompleted (games : List (String × GameState)) (sid : String) : Bool :=
  sessionFlag (fun st => st.completed) games sid

/-- A session moved, by one transition, from running to a failed completion. -/
def timedOutTransition (games games' : List (String × GameState)) (sid : String) :
    Prop :=
  ∃ st st', dictGet games sid = some st ∧ dictGet games' sid = some st' ∧
    st.completed = false ∧ st'.completed = true ∧ st'.success = some false

/-- A registry identical to `items` except for the description of the item
with id `iid`. -/
def redescribeItem (items : List (String × ItemConfig)) (iid d' : String) :
    List (String × ItemConfig) :=
  items.map (fun p =>
    if p.1 = iid then (p.1, { p.2 with description := d' }) else p)

/-! ### Dictionary lemmas -/

theorem dictGet_dictSet {α : Type} (l : List (String × α)) (k : String) (v : α)
    (k' : String) :
    dictGet (dictSet l k v) k' =
      if k' = k then (dictGet l k).map (fun _ => v) else dictGet l k' := by
  induction l with
  | nil => simp [dictGet, dictSet]
  | cons p rest ih =>
    simp only [dictGet, dictSet]
    by_cases hpk : p.1 = k <;> by_cases hpk' : p.1 = k' <;>
      by_cases hk' : k' = k <;> simp_all [dictGet]


theorem dictGet_dictSet_ne {α : Type} (l : List (String × α)) (k : String) (v : α)
    (k' : String) (h : k' ≠ k) : dictGet (dictSet l k v) k' = dictGet l k' := by
  rw [dictGet_dictSet, if_neg h]

theorem dictGet_dictSet_self {α : Type} (l : List (String × α)) (k : String) (v : α) :
    dictGet (dictSet l k v) k = (dictGet l k).map (fun _ => v) := by
  rw [dictGet_dictSet, if_pos rfl]

theorem dictGet_append_ne {α : Type} (l : List (String × α)) (k : String) (v : α)
    (k' : String) (h : k' ≠ k) : dictGet (l ++ [(k, v)]) k' = dictGet l k' := by
  induction l with
  | nil =>
    simp only [List.nil_append, dictGet]
    rw [if_neg (fun he => h he.symm)]
  | cons p rest ih => by_cases hp : p.1 = k' <;> simp [dictGet, hp, ih]

theorem dictGet_dictInsert_ne {α : Type} (l : List (String × α)) (k : String) (v : α)
    (k' : String) (h : k' ≠ k) : dictGet (dictInsert l k v) k' = dictGet l k' := by
  unfold dictInsert
  split
  · exact dictGet_dictSet_ne l k v k' h
  · exact dictGet_append_ne l k v k' h

theorem dictGet_append_self {α : Type} (l : List (String × α)) (k : String) (v : α)
    (h : dictGet l k = none) : dictGet (l ++ [(k, v)]) k = some v := by
  induction l with
  | nil => simp [dictGet]
  | cons p rest ih =>
    by_cases hp : p.1 = k
    · simp [dictGet, hp] at h
    · simp only [dictGet, hp, if_false, List.cons_append] at h ⊢
      exact ih h

theorem dictGet_dictInsert_self {α : Type} (l : List (String × α)) (k : String)
    (v : α) : dictGet (dictInsert l k v) k = some v := by
  unfold dictInsert
  split
  · next hc =>
    rw [dictGet_dictSet_self]
    unfold dictContains at hc
    rcases hg : dictGet l k with _ | w
    · rw [hg] at hc; simp at hc
    · simp
  · next hc =>
    apply dictGet_append_self
    rcases hg : dictGet l k with _ | w
    · rfl
    · exact absurd (by simp [dictContains, hg]) hc

theorem getD_dictSet_true_mono (l : List (String × Bool)) (q p : String)
    (h : (dictGet l p).getD false = true) :
    (dictGet (dictSet l q true) p).getD false = true := by
  rw [dictGet_dictSet]
  by_cases hpq : p = q
  · subst hpq
    rcases hg : dictGet l p with _ | b
    · rw [hg] at h; simp at h
    · simp
  · rw [if_neg hpq]; exact h

/-! ### Shape of each handler transition -/

theorem new_game_snd (cfg : GameConfig) (gs : List (String × GameState)) (now : ℚ) :
    (new_game cfg gs now).2 =
      dictInsert gs (newSessionId now) (create_new_game_state cfg now) := rfl

theorem get_hint_snd (cfg : GameConfig) (gs : List (String × GameState))
    (sid pid : String) :
    (get_hint cfg gs sid pid).2 = gs ∨
    ∃ st, dictGet gs sid = some st ∧
      (get_hint cfg gs sid pid).2 =
        dictSet gs sid { st with hints_used := st.hints_used + 1 } := by
  rcases h1 : dictGet gs sid with _ | st
  · left; simp [get_hint, h1]
  · rcases h2 : dictGet cfg.puzzles pid with _ | pc
    · left; simp [get_hint, h1, h2]
    · right; exact ⟨st, rfl, by simp [get_hint, h1, h2]⟩

theorem get_game_state_snd (cfg : GameConfig) (gs : List (String × GameState))
    (sid : String) (now : ℚ) :
    (get_game_state cfg gs sid now).2 = gs ∨
    ∃ st, dictGet gs sid = some st ∧ st.completed = false ∧
      (get_game_state cfg gs sid now).2 =
        dictSet gs sid { st with completed := true, success := some false } := by
  rcases h1 : dictGet gs sid with _ | st
  · left; simp [get_game_state, h1]
  · simp only [get_game_state, h1]
    split
    · next hcond => right; exact ⟨st, rfl, hcond.2, rfl⟩
    · next hcond => left; rfl

theorem solve_puzzle_snd (cfg : GameConfig) (gs : List (String × GameState))
    (sid pid : String) (sol : Option String) :
    (solve_puzzle cfg gs sid pid sol).2 = gs ∨
    ∃ st st', dictGet gs sid = some st ∧ st.completed = false ∧
      (solve_puzzle cfg gs sid pid sol).2 = dictSet gs sid st' ∧
      st'.start_time = st.start_time ∧
      st'.hints_used = st.hints_used ∧
      (∃ q, st'.puzzles = dictSet st.puzzles q true) ∧
      (st'.items = st.items ∨ ∃ i, st'.items = dictSet st.items i true) ∧
      ((st'.completed = st.completed ∧ st'.success = st.success) ∨
       (st'.completed = true ∧ st'.success = some true)) := by
  rcases h1 : dictGet gs sid with _ | st
  · left; simp [solve_puzzle, h1]
  rcases h2 : dictGet cfg.puzzles pid with _ | pc
  · left; simp [solve_puzzle, h1, h2]
  by_cases hc : st.completed = true
  · left; simp only [solve_puzzle, h1, h2]; rw [if_pos hc]
  by_cases hps : st.puzzleSolved pid = true
  · left; simp only [solve_puzzle, h1, h2]; rw [if_neg hc, if_pos hps]
  by_cases hdoor : pid = "door"
  · subst hdoor
    by_cases hall :
        ((pc.requires.getD []).all (fun p => st.puzzleSolved p)) = true
    · right
      refine ⟨st, { st with puzzles := dictSet st.puzzles "door" true,
                            completed := true, success := some true },
        rfl, Bool.not_eq_true _ ▸ hc, ?_, rfl, rfl, ⟨"door", rfl⟩,
        Or.inl rfl, Or.inr ⟨rfl, rfl⟩⟩
      simp only [solve_puzzle, h1, h2, Option.some_bind]
      rw [if_neg hc, if_neg hps, if_true, if_pos hall]
    · left
      simp only [solve_puzzle, h1, h2, Option.some_bind]
      rw [if_neg hc, if_neg hps, if_true, if_neg hall]
  by_cases hmatch : pyLower (sol.getD "") = pyLower (pc.solution.getD "")
  · rcases hfind : findUnfoundItem cfg.items pid
        { st with puzzles := dictSet st.puzzles pid true } with _ | ⟨iid, idesc⟩
    · right
      refine ⟨st, { st with puzzles := dictSet st.puzzles pid true },
        rfl, Bool.not_eq_true _ ▸ hc, ?_, rfl, rfl, ⟨pid, rfl⟩,
        Or.inl rfl, Or.inl ⟨rfl, rfl⟩⟩
      simp only [solve_puzzle, h1, h2]
      rw [if_neg hc, if_neg hps, if_neg hdoor, if_pos hmatch, hfind]
    · right
      refine ⟨st, { st with puzzles := dictSet st.puzzles pid true,
                            items := dictSet st.items iid true },
        rfl, Bool.not_eq_true _ ▸ hc, ?_, rfl, rfl, ⟨pid, rfl⟩,
        Or.inr ⟨iid, rfl⟩, Or.inl ⟨rfl, rfl⟩⟩
      simp only [solve_puzzle, h1, h2]
      rw [if_neg hc, if_neg hps, if_neg hdoor, if_pos hmatch, hfind]
  · left
    simp only [solve_puzzle, h1, h2]
    rw [if_neg hc, if_neg hps, if_neg hdoor, if_neg hmatch]

/-! ### Monotonicity of the solved and completed flags -/

theorem sessionFlag_congr (f : GameState → Bool) (gs gs' : List (String × GameState))
    (sid : String) (h : dictGet gs' sid = dictGet gs sid) :
    sessionFlag f gs' sid = sessionFlag f gs sid := by
  unfold sessionFlag
  rw [h]

theorem sessionFlag_dictSet (f : GameState → Bool) (gs : List (String × GameState))
    (s : String) (st' : GameState) (sid : String)
    (h : sessionFlag f gs sid = true)
    (hkeep : ∀ st, dictGet gs s = some st → f st = true → f st' = true) :
    sessionFlag f (dictSet gs s st') sid = true := by
  by_cases he : sid = s
  · subst he
    rcases hg : dictGet gs sid with _ | st
    · simp [sessionFlag, hg] at h
    · have hset : dictGet (dictSet gs sid st') sid = some st' := by
        rw [dictGet_dictSet_self, hg]; rfl
      simp only [sessionFlag, hset]
      simp only [sessionFlag, hg] at h
      exact hkeep st hg h
  · have hset : dictGet (dictSet gs s st') sid = dictGet gs sid :=
      dictGet_dictSet_ne _ _ _ _ he
    rw [sessionFlag_congr f gs _ sid hset]
    exact h

theorem step_sessionSolved_mono (cfg : GameConfig) (gs : List (String × GameState))
    (op : Op) (sid pid : String)
    (hop : ∀ now, op = Op.createSession now → newSessionId now ≠ sid)
    (h : sessionSolved gs sid pid = true) :
    sessionSolved (step cfg gs op) sid pid = true := by
  unfold sessionSolved at h ⊢
  cases op with
  | createSession now =>
    have hne : sid ≠ newSessionId now := fun e => (hop now rfl) e.symm
    show sessionFlag _ (new_game cfg gs now).2 sid = true
    rw [new_game_snd,
      sessionFlag_congr _ gs _ sid (dictGet_dictInsert_ne _ _ _ _ hne)]
    exact h
  | getView s now =>
    show sessionFlag _ (get_game_state cfg gs s now).2 sid = true
    rcases get_game_state_snd cfg gs s now with he | ⟨st, hg, _, he⟩
    · rw [he]; exact h
    · rw [he]
      exact sessionFlag_dictSet _ _ _ _ _ h
        (fun st0 hg0 hf => by rw [hg0] at hg; cases hg; exact hf)
  | attemptSolve s p so =>
    show sessionFlag _ (solve_puzzle cfg gs s p so).2 sid = true
    rcases solve_puzzle_snd cfg gs s p so with he | ⟨st, st', hg, _, he, _, _, ⟨q, hq⟩, _, _⟩
    · rw [he]; exact h
    · rw [he]
      refine sessionFlag_dictSet _ _ _ _ _ h (fun st0 hg0 hf => ?_)
      rw [hg0] at hg; cases hg
      show st'.puzzleSolved pid = true
      unfold GameState.puzzleSolved
      rw [hq]
      exact getD_dictSet_true_mono _ _ _ hf
  | useHint s p =>
    show sessionFlag _ (get_hint cfg gs s p).2 sid = true
    rcases get_hint_snd cfg gs s p with he | ⟨st, hg, he⟩
    · rw [he]; exact h
    · rw [he]
      exact sessionFlag_dictSet _ _ _ _ _ h
        (fun st0 hg0 hf => by rw [hg0] at hg; cases hg; exact hf)

theorem step_sessionCompleted_mono (cfg : GameConfig) (gs : List (String × GameState))
    (op : Op) (sid : String)
    (hop : ∀ now, op = Op.createSession now → newSessionId now ≠ sid)
    (h : sessionCompleted gs sid = true) :
    sessionCompleted (step cfg gs op) sid = true := by
  unfold sessionCompleted at h ⊢
  cases op with
  | createSession now =>
    have hne : sid ≠ newSessionId now := fun e => (hop now rfl) e.symm
    show sessionFlag _ (new_game cfg gs now).2 sid = true
    rw [new_game_snd,
      sessionFlag_congr _ gs _ sid (dictGet_dictInsert_ne _ _ _ _ hne)]
    exact h
  | getView s now =>
    show sessionFlag _ (get_game_state cfg gs s now).2 sid = true
    rcases get_game_state_snd cfg gs s now with he | ⟨st, hg, _, he⟩
    · rw [he]; exact h
    · rw [he]
      exact sessionFlag_dictSet _ _ _ _ _ h (fun st0 hg0 hf => rfl)
  | attemptSolve s p so =>
    show sessionFlag _ (solve_puzzle cfg gs s p so).2 sid = true
    rcases solve_puzzle_snd cfg gs s p so
      with he | ⟨st, st', hg, _, he, _, _, _, _, hcs⟩
    · rw [he]; exact h
    · rw [he]
      refine sessionFlag_dictSet _ _ _ _ _ h (fun st0 hg0 hf => ?_)
      rw [hg0] at hg; cases hg
      rcases hcs with ⟨hceq, _⟩ | ⟨hct, _⟩
      · show st'.completed = true
        rw [hceq]; exact hf
      · exact hct
  | useHint s p =>
    show sessionFlag _ (get_hint cfg gs s p).2 sid = true
    rcases get_hint_snd cfg gs s p with he | ⟨st, hg, he⟩
    · rw [he]; exact h
    · rw [he]
      exact sessionFlag_dictSet _ _ _ _ _ h
        (fun st0 hg0 hf => by rw [hg0] at hg; cases hg; exact hf)

theorem runOps_sessionSolved_mono (cfg : GameConfig) (ops : List Op) :
    ∀ gs : List (String × GameState), ∀ sid pid : String,
    (∀ now, Op.createSession now ∈ ops → newSessionId now ≠ sid) →
    sessionSolved gs sid pid = true →
    sessionSolved (runOps cfg gs ops) sid pid = true := by
  induction ops with
  | nil => intro gs sid pid _ h; exact h
  | cons op rest ih =>
    intro gs sid pid hop h
    exact ih (step cfg gs op) sid pid
      (fun now hm => hop now (List.mem_cons_of_mem op hm))
      (step_sessionSolved_mono cfg gs op sid pid
        (fun now he => hop now (he ▸ List.mem_cons_self op rest)) h)

theorem runOps_sessionCompleted_mono (cfg : GameConfig) (ops : List Op) :
    ∀ gs : List (String × GameState), ∀ sid : String,
    (∀ now, Op.createSession now ∈ ops → newSessionId now ≠ sid) →
    sessionCompleted gs sid = true →
    sessionCompleted (runOps cfg gs ops) sid = true := by
  induction ops with
  | nil => intro gs sid _ h; exact h
  | cons op rest ih =>
    intro gs sid hop h
    exact ih (step cfg gs op) sid
      (fun now hm => hop now (List.mem_cons_of_mem op hm))
      (step_sessionCompleted_mono cfg gs op sid
        (fun now he => hop now (he ▸ List.mem_cons_self op rest)) h)

theorem getD_dictSet_self_of_contains (l : List (String × Bool)) (k : String)
    (h : dictContains l k = true) :
    (dictGet (dictSet l k true) k).getD false = true := by
  rw [dictGet_dictSet_self]
  rcases hg : dictGet l k with _ | b
  · unfold dictContains at h; rw [hg] at h; simp at h
  · simp

theorem doorCfg : dictGet GAME_CONFIG.puzzles "door" =
    some { solution := none, requires := some ["safe", "bookshelf", "computer"],
           description := "The exit door. Requires all other puzzles to be solved." } := by
  decide

theorem findUnfoundItem_first (items : List (String × ItemConfig)) (pid : String)
    (st : GameState)
    (hex : ∃ e ∈ items, e.2.location = pid ∧ st.itemFound e.1 = false) :
    ∃ iid ic pre post,
      items = pre ++ (iid, ic) :: post ∧
      (∀ e ∈ pre, ¬(e.2.location = pid ∧ st.itemFound e.1 = false)) ∧
      ic.location = pid ∧ st.itemFound iid = false ∧
      findUnfoundItem items pid st = some (iid, ic.description) := by
  induction items with
  | nil => simp at hex
  | cons p rest ih =>
    obtain ⟨pi, pc2⟩ := p
    by_cases hp : pc2.location = pid ∧ st.itemFound pi = false
    · refine ⟨pi, pc2, [], rest, by simp, by simp, hp.1, hp.2, ?_⟩
      simp only [findUnfoundItem]
      rw [if_pos hp]
    · have hex' : ∃ e ∈ rest, e.2.location = pid ∧ st.itemFound e.1 = false := by
        rcases hex with ⟨e, he, hcond⟩
        rcases List.mem_cons.mp he with he' | he'
        · subst he'; exact absurd hcond hp
        · exact ⟨e, he', hcond⟩
      obtain ⟨iid, ic, pre, post, heq, hpre, hloc, hf, hfind⟩ := ih hex'
      refine ⟨iid, ic, (pi, pc2) :: pre, post, by rw [heq]; rfl, ?_, hloc, hf, ?_⟩
      · intro e he
        rcases List.mem_cons.mp he with he' | he'
        · exact he' ▸ hp
        · exact hpre e he'
      · simp only [findUnfoundItem]
        rw [if_neg hp]
        exact hfind

theorem dictGet_isSome_of_mem {α : Type} (l : List (String × α)) (e : String × α)
    (he : e ∈ l) : (dictGet l e.1).isSome = true := by
  induction l with
  | nil => simp at he
  | cons p rest ih =>
    by_cases hp : p.1 = e.1
    · simp [dictGet, hp]
    · rcases List.mem_cons.mp he with he' | he'
      · exact absurd (congrArg Prod.fst he'.symm) hp
      · simp only [dictGet, hp, if_false]
        exact ih he'

theorem dictGet_itemsView (items : List (String × ItemConfig)) (st : GameState)
    (k : String) :
    dictGet (itemsView items st) k =
      (dictGet items k).map (fun ic =>
        ({ found := st.itemFound k,
           description := if st.itemFound k = true then ic.description
                          else "???" } : ItemView)) := by
  induction items with
  | nil => rfl
  | cons p rest ih =>
    by_cases hp : p.1 = k <;>
      simp only [itemsView, List.map_cons, dictGet, hp, if_true, if_false] <;>
      simp only [itemsView] at ih <;> simp [ih, hp]

theorem itemsView_redacted (items : List (String × ItemConfig)) (st : GameState) :
    ∀ e ∈ itemsView items st, e.2.found = false → e.2.description = "???" := by
  intro e he hf
  rcases List.mem_map.mp he with ⟨p, hp, rfl⟩
  simp only at hf ⊢
  rw [if_neg (by simp [hf])]

theorem itemsView_redescribe (items : List (String × ItemConfig))
    (iid d' : String) (st : GameState) (h : st.itemFound iid = false) :
    itemsView (redescribeItem items iid d') st = itemsView items st := by
  induction items with
  | nil => rfl
  | cons p rest ih =>
    by_cases hp : p.1 = iid
    · simp only [redescribeItem, List.map_cons, if_pos hp, itemsView] at ih ⊢
      rw [ih]
      subst hp
      rw [if_neg (by simp [h]), if_neg (by simp [h])]
    · simp only [redescribeItem, List.map_cons, if_neg hp, itemsView] at ih ⊢
      rw [ih]

/-! ### Claim theorems -/

/-- Claim C2: for an existing session, `get_game_state` reports
`time_remaining` as the truncation of `max 0 (time_limit - elapsed)`; when
the elapsed time has reached or exceeded the limit and the session is not
yet completed, the same call reports `time_remaining = 0` and records
`completed = true, success = false`; and no operation other than a state
read ever moves a session from running to a failed completion (there is no
background timer). -/
theorem C2_getview_timeout (cfg : GameConfig) (gs : List (String × GameState))
    (sid : String) (now : ℚ) (st : GameState)
    (hs : dictGet gs sid = some st) :
    (∃ v, (get_game_state cfg gs sid now).1 = StateResponse.ok v ∧
       v.time_remaining =
         pyInt (max 0 ((cfg.time_limit : ℚ) - (now - st.start_time)))) ∧
    ((cfg.time_limit : ℚ) ≤ now - st.start_time ∧ st.completed = false →
       ∃ v, (get_game_state cfg gs sid now).1 = StateResponse.ok v ∧
         v.time_remaining = 0 ∧ v.completed = true ∧ v.success = false ∧
         (get_game_state cfg gs sid now).2 =
           dictSet gs sid { st with completed := true, success := some false }) ∧
    (∀ op : Op, op.isGetView = false →
       ∀ s, ¬timedOutTransition gs (step cfg gs op) s) := by
  refine ⟨?_, ?_, ?_⟩
  · simp only [get_game_state, hs]
    by_cases hcond :
        max 0 ((cfg.time_limit : ℚ) - (now - st.start_time)) ≤ 0 ∧
          st.completed = false
    · rw [if_pos hcond]; exact ⟨_, rfl, rfl⟩
    · rw [if_neg hcond]; exact ⟨_, rfl, rfl⟩
  · intro h2
    have hle : (cfg.time_limit : ℚ) - (now - st.start_time) ≤ 0 :=
      sub_nonpos.mpr h2.1
    have hmax : max 0 ((cfg.time_limit : ℚ) - (now - st.start_time)) = 0 :=
      max_eq_left hle
    simp only [get_game_state, hs]
    rw [if_pos ⟨le_of_eq hmax, h2.2⟩]
    refine ⟨_, rfl, ?_, rfl, rfl, rfl⟩
    show pyInt (max 0 ((cfg.time_limit : ℚ) - (now - st.start_time))) = 0
    rw [hmax]
    decide
  · rintro op hop s ⟨st0, st1, hg0, hg1, hc0, hc1, hsucc⟩
    cases op with
    | createSession now' =>
      by_cases hse : s = newSessionId now'
      · subst hse
        rw [step, new_game_snd, dictGet_dictInsert_self] at hg1
        cases hg1
        simp [create_new_game_state] at hc1
      · rw [step, new_game_snd, dictGet_dictInsert_ne _ _ _ _ hse, hg0] at hg1
        cases hg1
        rw [hc0] at hc1
        exact Bool.false_ne_true hc1
    | getView s' now' => simp [Op.isGetView] at hop
    | attemptSolve s' p so =>
      rcases solve_puzzle_snd cfg gs s' p so
        with he | ⟨stA, stB, hgA, _, he, _, _, _, _, hcs⟩
      · rw [step, he, hg0] at hg1
        cases hg1
        rw [hc0] at hc1
        exact Bool.false_ne_true hc1
      · by_cases hse : s = s'
        · subst hse
          rw [step, he, dictGet_dictSet_self, hgA] at hg1
          cases hg1
          rw [hgA] at hg0
          cases hg0
          rcases hcs with ⟨hceq, _⟩ | ⟨_, hsucc'⟩
          · rw [hceq, hc0] at hc1
            exact Bool.false_ne_true hc1
          · rw [hsucc'] at hsucc
            simp at hsucc
        · rw [step, he, dictGet_dictSet_ne _ _ _ _ hse, hg0] at hg1
          cases hg1
          rw [hc0] at hc1
          exact Bool.false_ne_true hc1
    | useHint s' p =>
      rcases get_hint_snd cfg gs s' p with he | ⟨stA, hgA, he⟩
      · rw [step, he, hg0] at hg1
        cases hg1
        rw [hc0] at hc1
        exact Bool.false_ne_true hc1
      · by_cases hse : s = s'
        · subst hse
          rw [step, he, dictGet_dictSet_self, hgA] at hg1
          cases hg1
          rw [hgA] at hg0
          cases hg0
          exact Bool.false_ne_true (hc0 ▸ (hc1 : st0.completed = true))
        · rw [step, he, dictGet_dictSet_ne _ _ _ _ hse, hg0] at hg1
          cases hg1
          rw [hc0] at hc1
          exact Bool.false_ne_true hc1

/-- Witness for C2: a fresh session read at exactly the deadline is
completed as a failure with zero remaining time by that read. -/
theorem C2_getview_timeout_witness :
    ∃ v, (get_game_state GAME_CONFIG
        [("s", create_new_game_state GAME_CONFIG 0)] "s" 1800).1 =
        StateResponse.ok v ∧
      v.time_remaining = 0 ∧ v.completed = true ∧ v.success = false ∧
      (get_game_state GAME_CONFIG
        [("s", create_new_game_state GAME_CONFIG 0)] "s" 1800).2 =
        dictSet [("s", create_new_game_state GAME_CONFIG 0)] "s"
          { create_new_game_state GAME_CONFIG 0 with
              completed := true, success := some false } :=
  (C2_getview_timeout GAME_CONFIG [("s", create_new_game_state GAME_CONFIG 0)]
    "s" 1800 (create_new_game_state GAME_CONFIG 0) (by decide)).2.1
    ⟨by simp [GAME_CONFIG, create_new_game_state], by decide⟩

/-- Claim C3: for a non-door puzzle that is not yet solved, in an active
session, the attempt succeeds exactly when the submitted text equals the
configured solution up to case; on a match the solved flag of that puzzle
is set, and on a mismatch the generic incorrect-answer failure is returned
with the session map unchanged. -/
theorem C3_nondoor_attempt (cfg : GameConfig) (gs : List (String × GameState))
    (sid pid : String) (st : GameState) (pc : PuzzleConfig) (solstr : String)
    (sol : Option String)
    (hs : dictGet gs sid = some st)
    (hp : dictGet cfg.puzzles pid = some pc)
    (hsol : pc.solution = some solstr)
    (hd : pid ≠ "door")
    (hc : st.completed = false)
    (hns : st.puzzleSolved pid = false)
    (hk : dictContains st.puzzles pid = true) :
    (pyLower (sol.getD "") = pyLower solstr →
       ∃ st' msg itf,
         solve_puzzle cfg gs sid pid sol =
           (SolveResponse.ok true msg itf false, dictSet gs sid st') ∧
         st'.puzzleSolved pid = true) ∧
    (pyLower (sol.getD "") ≠ pyLower solstr →
       solve_puzzle cfg gs sid pid sol =
         (SolveResponse.ok false "Incorrect solution. Try again." none false,
          gs)) := by
  have hcn : ¬st.completed = true := by simp [hc]
  have hpsn : ¬st.puzzleSolved pid = true := by simp [hns]
  constructor
  · intro hm
    have hm' : pyLower (sol.getD "") = pyLower (pc.solution.getD "") := by
      rw [hsol]; exact hm
    rcases hfind : findUnfoundItem cfg.items pid
        { st with puzzles := dictSet st.puzzles pid true } with _ | ⟨iid, idesc⟩
    · refine ⟨{ st with puzzles := dictSet st.puzzles pid true },
        "Puzzle solved!", none, ?_, getD_dictSet_self_of_contains _ _ hk⟩
      simp only [solve_puzzle, hs, hp]
      rw [if_neg hcn, if_neg hpsn, if_neg hd, if_pos hm', hfind]
    · refine ⟨{ st with puzzles := dictSet st.puzzles pid true,
                        items := dictSet st.items iid true },
        "Puzzle solved! You found: " ++ idesc, some iid, ?_,
        getD_dictSet_self_of_contains _ _ hk⟩
      simp only [solve_puzzle, hs, hp]
      rw [if_neg hcn, if_neg hpsn, if_neg hd, if_pos hm', hfind]
  · intro hm
    have hm' : ¬(pyLower (sol.getD "") = pyLower (pc.solution.getD "")) := by
      rw [hsol]; exact hm
    simp only [solve_puzzle, hs, hp]
    rw [if_neg hcn, if_neg hpsn, if_neg hd, if_neg hm']

/-- Witness for C3: submitting the case-differing text PASSWORD for the
computer puzzle, whose configured solution is password, succeeds and marks
the puzzle solved. -/
theorem C3_nondoor_attempt_witness :
    ∃ st' msg itf,
      solve_puzzle GAME_CONFIG [("s", create_new_game_state GAME_CONFIG 0)]
        "s" "computer" (some "PASSWORD") =
        (SolveResponse.ok true msg itf false,
         dictSet [("s", create_new_game_state GAME_CONFIG 0)] "s" st') ∧
      st'.puzzleSolved "computer" = true :=
  (C3_nondoor_attempt GAME_CONFIG
    [("s", create_new_game_state GAME_CONFIG 0)] "s" "computer"
    (create_new_game_state GAME_CONFIG 0)
    { solution := some "password", requires := none,
      description := "A locked computer that needs a password." }
    "password" (some "PASSWORD")
    (by decide) (by decide) (by decide) (by decide) (by decide) (by decide)
    (by decide)).1 (by decide)

/-- Claim C5: a successful non-door attempt with an unfound co-located item
reveals exactly one item, the first such entry in registry order: its found
flag is set, its real description and id are reported in the response,
every other found flag is untouched, and any later state read shows the
item as found.  In particular, solving safe with 1234 reveals the key. -/
theorem C5_reveal_first_item (cfg : GameConfig) (gs : List (String × GameState))
    (sid pid : String) (st : GameState) (pc : PuzzleConfig) (solstr : String)
    (sol : Option String)
    (hs : dictGet gs sid = some st)
    (hp : dictGet cfg.puzzles pid = some pc)
    (hsol : pc.solution = some solstr)
    (hd : pid ≠ "door")
    (hc : st.completed = false)
    (hns : st.puzzleSolved pid = false)
    (hk : dictContains st.puzzles pid = true)
    (hki : ∀ e ∈ cfg.items, dictContains st.items e.1 = true)
    (hm : pyLower (sol.getD "") = pyLower solstr)
    (hex : ∃ e ∈ cfg.items, e.2.location = pid ∧ st.itemFound e.1 = false) :
    (∃ iid ic pre post st',
      cfg.items = pre ++ (iid, ic) :: post ∧
      (∀ e ∈ pre, ¬(e.2.location = pid ∧ st.itemFound e.1 = false)) ∧
      ic.location = pid ∧ st.itemFound iid = false ∧
      solve_puzzle cfg gs sid pid sol =
        (SolveResponse.ok true ("Puzzle solved! You found: " ++ ic.description)
           (some iid) false,
         dictSet gs sid st') ∧
      st'.puzzleSolved pid = true ∧
      st'.itemFound iid = true ∧
      (∀ j, j ≠ iid → st'.itemFound j = st.itemFound j) ∧
      (∀ now' : ℚ, ∃ v,
        (get_game_state cfg (dictSet gs sid st') sid now').1 =
          StateResponse.ok v ∧
        ∃ vi, dictGet v.items iid = some vi ∧ vi.found = true)) ∧
    (solve_puzzle GAME_CONFIG [("w", create_new_game_state GAME_CONFIG 0)]
        "w" "safe" (some "1234")).1 =
      SolveResponse.ok true "Puzzle solved! You found: A small golden key."
        (some "key") false ∧
    sessionSolved (solve_puzzle GAME_CONFIG
        [("w", create_new_game_state GAME_CONFIG 0)]
        "w" "safe" (some "1234")).2 "w" "safe" = true ∧
    sessionFlag (fun s => s.itemFound "key")
      (solve_puzzle GAME_CONFIG [("w", create_new_game_state GAME_CONFIG 0)]
        "w" "safe" (some "1234")).2 "w" = true := by
  refine ⟨?_, by decide, by decide, by decide⟩
  have hcn : ¬st.completed = true := by simp [hc]
  have hpsn : ¬st.puzzleSolved pid = true := by simp [hns]
  have hm' : pyLower (sol.getD "") = pyLower (pc.solution.getD "") := by
    rw [hsol]; exact hm
  have hex1 : ∃ e ∈ cfg.items, e.2.location = pid ∧
      ({ st with puzzles := dictSet st.puzzles pid true } :
        GameState).itemFound e.1 = false := hex
  obtain ⟨iid, ic, pre, post, heq, hpre, hloc, hf, hfind⟩ :=
    findUnfoundItem_first cfg.items pid _ hex1
  have hmem : (iid, ic) ∈ cfg.items := by
    rw [heq]; exact List.mem_append_right pre (List.mem_cons_self _ _)
  have hkiid : dictContains st.items iid = true := hki (iid, ic) hmem
  have hit : (dictGet (dictSet st.items iid true) iid).getD false = true :=
    getD_dictSet_self_of_contains st.items iid hkiid
  refine ⟨iid, ic, pre, post,
    { st with puzzles := dictSet st.puzzles pid true,
              items := dictSet st.items iid true },
    heq, hpre, hloc, hf, ?_, getD_dictSet_self_of_contains st.puzzles pid hk,
    hit, ?_, ?_⟩
  · simp only [solve_puzzle, hs, hp]
    rw [if_neg hcn, if_neg hpsn, if_neg hd, if_pos hm', hfind]
  · intro j hj
    show (dictGet (dictSet st.items iid true) j).getD false = _
    rw [dictGet_dictSet_ne st.items iid true j hj]
    rfl
  · intro now'
    set st' : GameState :=
      { st with puzzles := dictSet st.puzzles pid true,
                items := dictSet st.items iid true } with hst'
    have hgv : dictGet (dictSet gs sid st') sid = some st' := by
      rw [dictGet_dictSet_self, hs]; rfl
    obtain ⟨icv, hgi⟩ : ∃ x, dictGet cfg.items iid = some x := by
      have := dictGet_isSome_of_mem cfg.items (iid, ic) hmem
      rcases hx : dictGet cfg.items iid with _ | x
      · rw [hx] at this; simp at this
      · exact ⟨x, rfl⟩
    simp only [get_game_state, hgv]
    by_cases hcond :
        max 0 ((cfg.time_limit : ℚ) - (now' - st'.start_time)) ≤ 0 ∧
          st'.completed = false
    · rw [if_pos hcond]
      refine ⟨_, rfl, ?_⟩
      show ∃ vi, dictGet (itemsView cfg.items
        { st' with completed := true, success := some false }) iid =
          some vi ∧ vi.found = true
      rw [dictGet_itemsView, hgi]
      exact ⟨_, rfl, hit⟩
    · rw [if_neg hcond]
      refine ⟨_, rfl, ?_⟩
      show ∃ vi, dictGet (itemsView cfg.items st') iid = some vi ∧ vi.found = true
      rw [dictGet_itemsView, hgi]
      exact ⟨_, rfl, hit⟩

/-- Witness for C5: solving safe with 1234 from a fresh session reveals the
first unfound item located at the safe. -/
theorem C5_reveal_first_item_witness :
    (∃ iid ic pre post st',
      GAME_CONFIG.items = pre ++ (iid, ic) :: post ∧
      (∀ e ∈ pre, ¬(e.2.location = "safe" ∧
        (create_new_game_state GAME_CONFIG 0).itemFound e.1 = false)) ∧
      ic.location = "safe" ∧
      (create_new_game_state GAME_CONFIG 0).itemFound iid = false ∧
      solve_puzzle GAME_CONFIG [("s", create_new_game_state GAME_CONFIG 0)]
        "s" "safe" (some "1234") =
        (SolveResponse.ok true ("Puzzle solved! You found: " ++ ic.description)
           (some iid) false,
         dictSet [("s", create_new_game_state GAME_CONFIG 0)] "s" st') ∧
      st'.puzzleSolved "safe" = true ∧
      st'.itemFound iid = true ∧
      (∀ j, j ≠ iid → st'.itemFound j =
        (create_new_game_state GAME_CONFIG 0).itemFound j) ∧
      (∀ now' : ℚ, ∃ v,
        (get_game_state GAME_CONFIG
          (dictSet [("s", create_new_game_state GAME_CONFIG 0)] "s" st')
          "s" now').1 = StateResponse.ok v ∧
        ∃ vi, dictGet v.items iid = some vi ∧ vi.found = true)) ∧
    (solve_puzzle GAME_CONFIG [("w", create_new_game_state GAME_CONFIG 0)]
        "w" "safe" (some "1234")).1 =
      SolveResponse.ok true "Puzzle solved! You found: A small golden key."
        (some "key") false ∧
    sessionSolved (solve_puzzle GAME_CONFIG
        [("w", create_new_game_state GAME_CONFIG 0)]
        "w" "safe" (some "1234")).2 "w" "safe" = true ∧
    sessionFlag (fun s => s.itemFound "key")
      (solve_puzzle GAME_CONFIG [("w", create_new_game_state GAME_CONFIG 0)]
        "w" "safe" (some "1234")).2 "w" = true :=
  C5_reveal_first_item GAME_CONFIG
    [("s", create_new_game_state GAME_CONFIG 0)] "s" "safe"
    (create_new_game_state GAME_CONFIG 0)
    { solution := some "1234", requires := none,
      description := "A locked safe with a 4-digit combination." }
    "1234" (some "1234")
    (by decide) (by decide) (by decide) (by decide) (by decide) (by decide)
    (by decide) (by decide) (by decide) (by decide)

/-- Claim C6 counterexample: an attempt on an already-completed session is
answered with an HTTP 400 error body, not with a 200 response carrying
`success = false`, contradicting the claim that every rejected outcome is a
successful (non-error) response. -/
theorem C6_counterexample :
    (solve_puzzle GAME_CONFIG
        [("s", { create_new_game_state GAME_CONFIG 0 with
                   completed := true, success := some false })]
        "s" "safe" (some "1234")).1 =
      SolveResponse.badRequest "Game already completed" ∧
    (solve_puzzle GAME_CONFIG
        [("s", { create_new_game_state GAME_CONFIG 0 with
                   completed := true, success := some false })]
        "s" "safe" (some "1234")).1.status = 400 ∧
    (solve_puzzle GAME_CONFIG
        [("s", { create_new_game_state GAME_CONFIG 0 with
                   completed := true, success := some false })]
        "s" "safe" (some "1234")).1.status ≠ 200 := by decide

/-- Claim C6 (amended): wrong-answer and unmet-door-prerequisite rejections
are 200 responses carrying `success = false` and a message, while
already-completed and already-solved rejections are 400 error responses;
in every rejected case the session map is unchanged. -/
theorem C6_rejections (cfg : GameConfig) (gs : List (String × GameState))
    (sid pid : String) (st : GameState) (pc : PuzzleConfig) (solstr : String)
    (sol : Option String)
    (hs : dictGet gs sid = some st)
    (hp : dictGet cfg.puzzles pid = some pc) :
    (st.completed = true →
       solve_puzzle cfg gs sid pid sol =
         (SolveResponse.badRequest "Game already completed", gs) ∧
       (solve_puzzle cfg gs sid pid sol).1.status = 400) ∧
    (st.completed = false → st.puzzleSolved pid = true →
       solve_puzzle cfg gs sid pid sol =
         (SolveResponse.badRequest "Puzzle already solved", gs) ∧
       (solve_puzzle cfg gs sid pid sol).1.status = 400) ∧
    (st.completed = false → st.puzzleSolved pid = false → pid ≠ "door" →
       pc.solution = some solstr → pyLower (sol.getD "") ≠ pyLower solstr →
       solve_puzzle cfg gs sid pid sol =
         (SolveResponse.ok false "Incorrect solution. Try again." none false,
          gs) ∧
       (solve_puzzle cfg gs sid pid sol).1.status = 200) ∧
    (st.completed = false → st.puzzleSolved pid = false → pid = "door" →
       ¬(((pc.requires.getD []).all (fun p => st.puzzleSolved p)) = true) →
       solve_puzzle cfg gs sid pid sol =
         (SolveResponse.ok false
            "You need to solve all puzzles before opening the door." none false,
          gs) ∧
       (solve_puzzle cfg gs sid pid sol).1.status = 200) := by
  refine ⟨?_, ?_, ?_, ?_⟩
  · intro hc
    have he : solve_puzzle cfg gs sid pid sol =
        (SolveResponse.badRequest "Game already completed", gs) := by
      simp only [solve_puzzle, hs, hp]
      rw [if_pos hc]
    exact ⟨he, by rw [he]; rfl⟩
  · intro hc hps
    have he : solve_puzzle cfg gs sid pid sol =
        (SolveResponse.badRequest "Puzzle already solved", gs) := by
      simp only [solve_puzzle, hs, hp]
      rw [if_neg (by simp [hc]), if_pos hps]
    exact ⟨he, by rw [he]; rfl⟩
  · intro hc hps hd hsol hm
    have hm' : ¬(pyLower (sol.getD "") = pyLower (pc.solution.getD "")) := by
      rw [hsol]; exact hm
    have he : solve_puzzle cfg gs sid pid sol =
        (SolveResponse.ok false "Incorrect solution. Try again." none false,
         gs) := by
      simp only [solve_puzzle, hs, hp]
      rw [if_neg (by simp [hc]), if_neg (by simp [hps]), if_neg hd, if_neg hm']
    exact ⟨he, by rw [he]; rfl⟩
  · intro hc hps hd hall
    subst hd
    have hall' : ¬((((dictGet cfg.puzzles "door").bind
        PuzzleConfig.requires).getD []).all (fun p => st.puzzleSolved p)
          = true) := by
      rw [hp, Option.some_bind]; exact hall
    have he : solve_puzzle cfg gs sid "door" sol =
        (SolveResponse.ok false
           "You need to solve all puzzles before opening the door." none false,
         gs) := by
      simp only [solve_puzzle, hs, hp, Option.some_bind]
      rw [if_neg (by simp [hc]), if_neg (by simp [hps]), if_true,
        if_neg (by rw [hp, Option.some_bind] at hall'; exact hall')]
    exact ⟨he, by rw [he]; rfl⟩

/-- Witness for C6: attempting an already-solved puzzle is rejected with a
400 error body and the session map is unchanged. -/
theorem C6_rejections_witness :
    solve_puzzle GAME_CONFIG
      [("s", { create_new_game_state GAME_CONFIG 0 with
                 puzzles := [("safe", true), ("bookshelf", false),
                             ("computer", false), ("door", false)] })]
      "s" "safe" (some "1234") =
      (SolveResponse.badRequest "Puzzle already solved",
       [("s", { create_new_game_state GAME_CONFIG 0 with
                  puzzles := [("safe", true), ("bookshelf", false),
                              ("computer", false), ("door", false)] })]) ∧
    (solve_puzzle GAME_CONFIG
      [("s", { create_new_game_state GAME_CONFIG 0 with
                 puzzles := [("safe", true), ("bookshelf", false),
                             ("computer", false), ("door", false)] })]
      "s" "safe" (some "1234")).1.status = 400 :=
  (C6_rejections GAME_CONFIG
    [("s", { create_new_game_state GAME_CONFIG 0 with
               puzzles := [("safe", true), ("bookshelf", false),
                           ("computer", false), ("door", false)] })]
    "s" "safe"
    { create_new_game_state GAME_CONFIG 0 with
        puzzles := [("safe", true), ("bookshelf", false),
                    ("computer", false), ("door", false)] }
    { solution := some "1234", requires := none,
      description := "A locked safe with a 4-digit combination." }
    "1234" (some "1234") (by decide) (by decide)).2.1 (by decide) (by decide)

/-- Claim C7: a hint request fails with 404 for an unknown session or
puzzle id, leaving the session map unchanged (so `hints_used` is not
incremented); for valid ids it increments `hints_used` by exactly one,
returns the canned hint keyed by the puzzle id with a fallback string for
missing entries, and touches nothing else — with no completion check, so it
works any number of times, including on completed sessions. -/
theorem C7_hint (cfg : GameConfig) (gs : List (String × GameState))
    (sid pid : String) :
    (dictGet gs sid = none →
       get_hint cfg gs sid pid =
         (HintResponse.notFound "Game session not found", gs)) ∧
    (∀ st, dictGet gs sid = some st → dictGet cfg.puzzles pid = none →
       get_hint cfg gs sid pid =
         (HintResponse.notFound "Puzzle not found", gs)) ∧
    (∀ st pc, dictGet gs sid = some st → dictGet cfg.puzzles pid = some pc →
       get_hint cfg gs sid pid =
         (HintResponse.ok
            ((dictGet hints pid).getD "No hint available for this puzzle.")
            (st.hints_used + 1),
          dictSet gs sid { st with hints_used := st.hints_used + 1 })) := by
  refine ⟨?_, ?_, ?_⟩
  · intro h
    simp [get_hint, h]
  · intro st h1 h2
    simp [get_hint, h1, h2]
  · intro st pc h1 h2
    simp [get_hint, h1, h2]

/-- Witness for C7: a hint for the door on a completed session still
returns the canned door hint and bumps the counter from 3 to 4. -/
theorem C7_hint_witness :
    get_hint GAME_CONFIG
      [("s", { create_new_game_state GAME_CONFIG 0 with
                 hints_used := 3, completed := true, success := some true })]
      "s" "door" =
      (HintResponse.ok "You need to solve all other puzzles first." 4,
       dictSet
         [("s", { create_new_game_state GAME_CONFIG 0 with
                    hints_used := 3, completed := true, success := some true })]
         "s"
         { create_new_game_state GAME_CONFIG 0 with
             hints_used := 4, completed := true, success := some true }) := by
  have h := (C7_hint GAME_CONFIG
    [("s", { create_new_game_state GAME_CONFIG 0 with
               hints_used := 3, completed := true, success := some true })]
    "s" "door").2.2
    { create_new_game_state GAME_CONFIG 0 with
        hints_used := 3, completed := true, success := some true }
    { solution := none, requires := some ["safe", "bookshelf", "computer"],
      description := "The exit door. Requires all other puzzles to be solved." }
    (by decide) (by decide)
  rw [h]
  decide

/-- Claim C9: every state view shows the placeholder for unfound items, and
two registries differing only in the description of an item the session has
not found produce identical `get_game_state` results, so the response does
not leak unfound-item descriptions. -/
theorem C9_view_redaction (cfg : GameConfig) (gs : List (String × GameState))
    (sid : String) (now : ℚ) :
    (∀ v, (get_game_state cfg gs sid now).1 = StateResponse.ok v →
       ∀ e ∈ v.items, e.2.found = false → e.2.description = "???") ∧
    (∀ iid d' st, dictGet gs sid = some st → st.itemFound iid = false →
       get_game_state { cfg with items := redescribeItem cfg.items iid d' }
           gs sid now =
         get_game_state cfg gs sid now) := by
  constructor
  · intro v hv e he hf
    rcases h1 : dictGet gs sid with _ | st
    · simp [get_game_state, h1] at hv
    · simp only [get_game_state, h1] at hv
      split at hv <;>
        · cases hv
          exact itemsView_redacted cfg.items _ e he hf
  · intro iid d' st h1 h2
    simp only [get_game_state, h1]
    by_cases hcond :
        max 0 ((cfg.time_limit : ℚ) - (now - st.start_time)) ≤ 0 ∧
          st.completed = false
    · rw [if_pos hcond, if_pos hcond]
      simp only [mkStateView]
      rw [itemsView_redescribe cfg.items iid d'
        { st with completed := true, success := some false } h2]
    · rw [if_neg hcond, if_neg hcond]
      simp only [mkStateView]
      rw [itemsView_redescribe cfg.items iid d' _ h2]

/-- Witness for C9: changing the description of the unfound note does not
change the state view of a fresh session. -/
theorem C9_view_redaction_witness :
    get_game_state
      { GAME_CONFIG with
          items := redescribeItem GAME_CONFIG.items "note"
            "A blank slip of paper." }
      [("s", create_new_game_state GAME_CONFIG 0)] "s" 0 =
    get_game_state GAME_CONFIG
      [("s", create_new_game_state GAME_CONFIG 0)] "s" 0 :=
  (C9_view_redaction GAME_CONFIG [("s", create_new_game_state GAME_CONFIG 0)]
    "s" 0).2 "note" "A blank slip of paper."
    (create_new_game_state GAME_CONFIG 0) (by decide) (by decide)

/-- Claim C10 counterexample: a request body without a solution key against
an already-solved non-door puzzle of an active session is rejected with the
400 error body for already-solved puzzles, not answered with the
incorrect-answer failure the claim asserts for any non-door puzzle: the
already-solved check runs before the body is read. -/
theorem C10_counterexample :
    (solve_puzzle GAME_CONFIG
        [("s", { create_new_game_state GAME_CONFIG 0 with
                   puzzles := [("safe", true), ("bookshelf", false),
                               ("computer", false), ("door", false)] })]
        "s" "safe" none).1 =
      SolveResponse.badRequest "Puzzle already solved" ∧
    (solve_puzzle GAME_CONFIG
        [("s", { create_new_game_state GAME_CONFIG 0 with
                   puzzles := [("safe", true), ("bookshelf", false),
                               ("computer", false), ("door", false)] })]
        "s" "safe" none).1.status = 400 ∧
    (solve_puzzle GAME_CONFIG
        [("s", { create_new_game_state GAME_CONFIG 0 with
                   puzzles := [("safe", true), ("bookshelf", false),
                               ("computer", false), ("door", false)] })]
        "s" "safe" none).1 ≠
      SolveResponse.ok false "Incorrect solution. Try again." none false := by
  decide

/-- Claim C10 (amended): a request body without a solution key is read
exactly as the empty string (a definitional equality for every
configuration and input); since every configured solution is non-empty,
such an attempt on any not-yet-solved non-door puzzle of an active session
returns the incorrect-answer failure with the session map unchanged
(already-solved puzzles are instead rejected with the 400 already-solved
error before the body is read, per the counterexample), and for the door
the body is ignored entirely. -/
theorem C10_missing_solution (gs : List (String × GameState)) (sid pid : String)
    (st : GameState) (pc : PuzzleConfig)
    (hs : dictGet gs sid = some st)
    (hp : dictGet GAME_CONFIG.puzzles pid = some pc)
    (hd : pid ≠ "door")
    (hc : st.completed = false)
    (hns : st.puzzleSolved pid = false) :
    (∀ (cfg' : GameConfig) (gs' : List (String × GameState)) (sid' pid' : String),
       solve_puzzle cfg' gs' sid' pid' none =
         solve_puzzle cfg' gs' sid' pid' (some "")) ∧
    solve_puzzle GAME_CONFIG gs sid pid none =
      (SolveResponse.ok false "Incorrect solution. Try again." none false, gs) ∧
    (∀ (sol : Option String) (gs2 : List (String × GameState)) (sid2 : String),
       solve_puzzle GAME_CONFIG gs2 sid2 "door" none =
         solve_puzzle GAME_CONFIG gs2 sid2 "door" sol) := by
  refine ⟨fun _ _ _ _ => rfl, ?_, ?_⟩
  · have hcase :
        (pid = "safe" ∧ pc.solution = some "1234") ∨
        (pid = "bookshelf" ∧ pc.solution = some "red,blue,green") ∨
        (pid = "computer" ∧ pc.solution = some "password") := by
      by_cases h1 : pid = "safe"
      · subst h1
        rw [show dictGet GAME_CONFIG.puzzles "safe" =
          some { solution := some "1234", requires := none,
                 description := "A locked safe with a 4-digit combination." }
          from by decide] at hp
        cases hp
        exact Or.inl ⟨rfl, rfl⟩
      by_cases h2 : pid = "bookshelf"
      · subst h2
        rw [show dictGet GAME_CONFIG.puzzles "bookshelf" =
          some { solution := some "red,blue,green", requires := none,
                 description :=
                   "A bookshelf with colored books that need to be arranged." }
          from by decide] at hp
        cases hp
        exact Or.inr (Or.inl ⟨rfl, rfl⟩)
      by_cases h3 : pid = "computer"
      · subst h3
        rw [show dictGet GAME_CONFIG.puzzles "computer" =
          some { solution := some "password", requires := none,
                 description := "A locked computer that needs a password." }
          from by decide] at hp
        cases hp
        exact Or.inr (Or.inr ⟨rfl, rfl⟩)
      · exfalso
        have hnone : dictGet GAME_CONFIG.puzzles pid = none := by
          show dictGet
            [("safe", _), ("bookshelf", _), ("computer", _), ("door", _)]
            pid = none
          simp only [dictGet]
          rw [if_neg (fun he => h1 he.symm), if_neg (fun he => h2 he.symm),
            if_neg (fun he => h3 he.symm), if_neg (fun he => hd he.symm)]
        rw [hnone] at hp
        cases hp
    have hcn : ¬st.completed = true := by simp [hc]
    have hpsn : ¬st.puzzleSolved pid = true := by simp [hns]
    rcases hcase with ⟨hpid, hsol⟩ | ⟨hpid, hsol⟩ | ⟨hpid, hsol⟩ <;>
      · have hm' : ¬(pyLower ((none : Option String).getD "") =
            pyLower (pc.solution.getD "")) := by
          rw [hsol]; decide
        simp only [solve_puzzle, hs, hp]
        rw [if_neg hcn, if_neg hpsn, if_neg hd, if_neg hm']
  · intro sol gs2 sid2
    rcases h1 : dictGet gs2 sid2 with _ | st2
    · simp [solve_puzzle, h1]
    · simp only [solve_puzzle, h1, doorCfg, Option.some_bind, if_true]

/-- Witness for C10: a body without a solution key fails the safe puzzle on
a fresh session and changes nothing. -/
theorem C10_missing_solution_witness :
    solve_puzzle GAME_CONFIG [("s", create_new_game_state GAME_CONFIG 0)]
      "s" "safe" none =
      (SolveResponse.ok false "Incorrect solution. Try again." none false,
       [("s", create_new_game_state GAME_CONFIG 0)]) :=
  (C10_missing_solution [("s", create_new_game_state GAME_CONFIG 0)] "s" "safe"
    (create_new_game_state GAME_CONFIG 0)
    { solution := some "1234", requires := none,
      description := "A locked safe with a 4-digit combination." }
    (by decide) (by decide) (by decide) (by decide) (by decide)).2.1

/-- Claim C4 counterexample: the solved flag of a session is not monotonic
over arbitrary operation sequences: a later `new_game` call whose
timestamp-derived id collides with the session id (two creations within the
same wall-clock second) overwrites the record, resetting a solved puzzle to
unsolved. -/
theorem C4_counterexample :
    sessionSolved (runOps GAME_CONFIG []
      [Op.createSession 100, Op.attemptSolve "100" "safe" (some "1234")])
      "100" "safe" = true ∧
    sessionSolved (runOps GAME_CONFIG []
      [Op.createSession 100, Op.attemptSolve "100" "safe" (some "1234"),
       Op.createSession (mkRat 201 2)])
      "100" "safe" = false := by decide

/-- Claim C4 (amended): provided no `new_game` call in the sequence derives
a session id equal to this session's id (an id collision, possible for two
creations within the same wall-clock second), the solved flag of each
puzzle and the completed flag of the session are monotonic: once true they
stay true across any sequence of operations. -/
theorem C4_monotonic_flags (cfg : GameConfig) (gs : List (String × GameState))
    (ops : List Op) (sid pid : String)
    (hop : ∀ now, Op.createSession now ∈ ops → newSessionId now ≠ sid) :
    (sessionSolved gs sid pid = true →
       sessionSolved (runOps cfg gs ops) sid pid = true) ∧
    (sessionCompleted gs sid = true →
       sessionCompleted (runOps cfg gs ops) sid = true) :=
  ⟨fun h => runOps_sessionSolved_mono cfg ops gs sid pid hop h,
   fun h => runOps_sessionCompleted_mono cfg ops gs sid hop h⟩

/-- Witness for C4: a solved safe and a completed session stay solved and
completed across a state read, a further attempt, a hint, and a session
creation with a different id. -/
theorem C4_monotonic_flags_witness :
    sessionSolved (runOps GAME_CONFIG
      [("100", { create_new_game_state GAME_CONFIG 100 with
                   puzzles := [("safe", true), ("bookshelf", false),
                               ("computer", false), ("door", false)],
                   completed := true, success := some false })]
      [Op.getView "100" 200, Op.attemptSolve "100" "computer" (some "password"),
       Op.useHint "100" "safe", Op.createSession 300])
      "100" "safe" = true ∧
    sessionCompleted (runOps GAME_CONFIG
      [("100", { create_new_game_state GAME_CONFIG 100 with
                   puzzles := [("safe", true), ("bookshelf", false),
                               ("computer", false), ("door", false)],
                   completed := true, success := some false })]
      [Op.getView "100" 200, Op.attemptSolve "100" "computer" (some "password"),
       Op.useHint "100" "safe", Op.createSession 300])
      "100" = true :=
  ⟨(C4_monotonic_flags GAME_CONFIG
      [("100", { create_new_game_state GAME_CONFIG 100 with
                   puzzles := [("safe", true), ("bookshelf", false),
                               ("computer", false), ("door", false)],
                   completed := true, success := some false })]
      [Op.getView "100" 200, Op.attemptSolve "100" "computer" (some "password"),
       Op.useHint "100" "safe", Op.createSession 300]
      "100" "safe" (by
        intro now hm
        simp only [List.mem_cons, List.not_mem_nil, or_false] at hm
        rcases hm with h | h | h | h
        · exact Op.noConfusion h
        · exact Op.noConfusion h
        · exact Op.noConfusion h
        · cases h; decide)).1 (by decide),
   (C4_monotonic_flags GAME_CONFIG
      [("100", { create_new_game_state GAME_CONFIG 100 with
                   puzzles := [("safe", true), ("bookshelf", false),
                               ("computer", false), ("door", false)],
                   completed := true, success := some false })]
      [Op.getView "100" 200, Op.attemptSolve "100" "computer" (some "password"),
       Op.useHint "100" "safe", Op.createSession 300]
      "100" "safe" (by
        intro now hm
        simp only [List.mem_cons, List.not_mem_nil, or_false] at hm
        rcases hm with h | h | h | h
        · exact Op.noConfusion h
        · exact Op.noConfusion h
        · exact Op.noConfusion h
        · cases h; decide)).2 (by decide)⟩

/-- Claim C8: the code derives session ids from whole-second timestamps, so
two `new_game` calls at distinct instants within the same wall-clock second
return the same id and the second call overwrites the first record: after
both calls the map holds a single session.  This contradicts the stated
uniqueness requirement — a code bug acknowledged by the specification. -/
theorem C8_session_id_collision :
    (new_game GAME_CONFIG [] 100).1.session_id = "100" ∧
    (new_game GAME_CONFIG (new_game GAME_CONFIG [] 100).2
        (mkRat 201 2)).1.session_id = "100" ∧
    (100 : ℚ) ≠ mkRat 201 2 ∧
    ((new_game GAME_CONFIG (new_game GAME_CONFIG [] 100).2
        (mkRat 201 2)).2).length = 1 := by decide

/-- Claim C1: in an active session with the door unsolved, attempting the
door ignores the submitted text (the conclusion does not depend on `sol`);
it succeeds exactly when safe, bookshelf and computer are all solved, in
which case the door is marked solved and the session becomes
completed-successful with the victory message; otherwise it returns a
non-fatal `success = false` result and the session map is unchanged. -/
theorem C1_door_attempt (gs : List (String × GameState)) (sid : String)
    (st : GameState) (sol : Option String)
    (hs : dictGet gs sid = some st) (hc : st.completed = false)
    (hd : st.puzzleSolved "door" = false)
    (hk : dictContains st.puzzles "door" = true) :
    (st.puzzleSolved "safe" = true ∧ st.puzzleSolved "bookshelf" = true ∧
        st.puzzleSolved "computer" = true →
      ∃ stWin,
        solve_puzzle GAME_CONFIG gs sid "door" sol =
          (SolveResponse.ok true "Congratulations! You\x27ve escaped the room!"
             none true,
           dictSet gs sid stWin) ∧
        stWin = { st with puzzles := dictSet st.puzzles "door" true,
                          completed := true, success := some true } ∧
        stWin.puzzleSolved "door" = true) ∧
    (¬(st.puzzleSolved "safe" = true ∧ st.puzzleSolved "bookshelf" = true ∧
        st.puzzleSolved "computer" = true) →
      solve_puzzle GAME_CONFIG gs sid "door" sol =
        (SolveResponse.ok false
           "You need to solve all puzzles before opening the door." none false,
         gs)) := by
  have hcn : ¬st.completed = true := by simp [hc]
  have hdn : ¬st.puzzleSolved "door" = true := by simp [hd]
  constructor
  · intro hpre
    have hall : ((["safe", "bookshelf", "computer"] : List String).all
        (fun p => st.puzzleSolved p)) = true := by
      simp [List.all_cons, hpre.1, hpre.2.1, hpre.2.2]
    refine ⟨_, ?_, rfl, getD_dictSet_self_of_contains st.puzzles "door" hk⟩
    simp only [solve_puzzle, hs, doorCfg, Option.some_bind, Option.getD_some]
    rw [if_neg hcn, if_neg hdn, if_true, if_pos hall]
  · intro hpre
    have hall : ¬(((["safe", "bookshelf", "computer"] : List String).all
        (fun p => st.puzzleSolved p)) = true) := by
      simpa [List.all_cons, and_assoc] using hpre
    simp only [solve_puzzle, hs, doorCfg, Option.some_bind, Option.getD_some]
    rw [if_neg hcn, if_neg hdn, if_true, if_neg hall]

/-- Witness for C1: a session with the three prerequisite puzzles solved is
completed successfully by the door attempt. -/
theorem C1_door_attempt_witness :
    ∃ stWin,
      solve_puzzle GAME_CONFIG
        [("s", { start_time := 0,
                 puzzles := [("safe", true), ("bookshelf", true),
                             ("computer", true), ("door", false)],
                 items := [("key", true), ("note", true), ("usb_drive", true)],
                 hints_used := 0, completed := false, success := none })]
        "s" "door" (some "anything") =
        (SolveResponse.ok true "Congratulations! You\x27ve escaped the room!"
           none true,
         dictSet
           [("s", { start_time := 0,
                    puzzles := [("safe", true), ("bookshelf", true),
                                ("computer", true), ("door", false)],
                    items := [("key", true), ("note", true), ("usb_drive", true)],
                    hints_used := 0, completed := false, success := none })]
           "s" stWin) ∧
      stWin = { start_time := 0,
                puzzles := dictSet
                  [("safe", true), ("bookshelf", true),
                   ("computer", true), ("door", false)] "door" true,
                items := [("key", true), ("note", true), ("usb_drive", true)],
                hints_used := 0, completed := true, success := some true } ∧
      stWin.puzzleSolved "door" = true :=
  (C1_door_attempt
    [("s", { start_time := 0,
             puzzles := [("safe", true), ("bookshelf", true),
                         ("computer", true), ("door", false)],
             items := [("key", true), ("note", true), ("usb_drive", true)],
             hints_used := 0, completed := false, success := none })]
    "s"
    { start_time := 0,
      puzzles := [("safe", true), ("bookshelf", true),
                  ("computer", true), ("door", false)],
      items := [("key", true), ("note", true), ("usb_drive", true)],
      hints_used := 0, completed := false, success := none }
    (some "anything") (by decide) (by decide) (by decide)
    (by decide)).1 ⟨by decide, by decide, by decide⟩
